import Mathlib

/-!
# Verification of the painter-booking assignment engine

A shallow embedding of the booking/availability services of the
Adam-Painter-Booking repository (NestJS/TypeORM), together with proofs and
refutations of the specification's claims about them.

Modelling conventions:

* A JavaScript `Date` is modelled as `Option Int` — milliseconds since the
  epoch, with `none` standing for an *Invalid Date* (`getTime()` is `NaN`).
  Every JS comparison involving `NaN` is `false`, which the `js*B` helpers
  reproduce.
* The TypeORM repositories backing the services are modelled as plain lists:
  the slot store is a `List Slot`, the booking store a `List Booking`, the
  user table a `List User`.  `findOne`/`find?` returns the first match.
* `async`/`await` service methods become pure functions; a thrown Nest
  exception becomes `Except.error` carrying the exception class and message.
  Database writes performed before a throw are kept: the lifecycle operations
  return an `OpResult` holding the outcome *and* the stores as left behind,
  so partial writes (relevant to the atomicity claims) are observable.
* The non-deterministic average response time (`Math.random()` in
  `getAverageResponseTime`) is an explicit environment `String → ℚ` mapping a
  painter id to the sampled value, and the ambient clock is an explicit
  `now : Int` parameter.
-/

namespace PainterBooking

/-! ## JS date values and comparisons

`none` models an Invalid Date (`NaN` timestamp); any comparison with `NaN`
is `false` in JS, and arithmetic with `NaN` is `NaN`. -/

/-- JS `a < b` on `Date` values; `false` when either side is Invalid. -/
def jsLtB : Option Int → Option Int → Bool
  | some a, some b => decide (a < b)
  | _, _ => false

/-- JS `a <= b` on `Date` values; `false` when either side is Invalid. -/
def jsLeB : Option Int → Option Int → Bool
  | some a, some b => decide (a ≤ b)
  | _, _ => false

/-- JS `a >= b` on `Date` values; `false` when either side is Invalid. -/
def jsGeB : Option Int → Option Int → Bool
  | some a, some b => decide (b ≤ a)
  | _, _ => false

/-- JS `a > b` on `Date` values; `false` when either side is Invalid. -/
def jsGtB : Option Int → Option Int → Bool
  | some a, some b => decide (b < a)
  | _, _ => false

/-- JS subtraction of millisecond timestamps; `NaN` propagates. -/
def jsSub : Option Int → Option Int → Option Int
  | some a, some b => some (a - b)
  | _, _ => none

/-- JS addition of millisecond timestamps; `NaN` propagates. -/
def jsAdd : Option Int → Option Int → Option Int
  | some a, some b => some (a + b)
  | _, _ => none

/-! ## Data model (`src/entities`) -/

/-- `UserType` from `user.entity.ts`. -/
inductive UserType where
  | customer
  | painter
deriving DecidableEq, Repr

/-- The fields of the `User` entity consumed by the engine: identity, role
and registration instant (`createdAt`, used by the scorer). -/
structure User where
  id : String
  userType : UserType
  createdAt : Int
deriving DecidableEq, Repr

/-- The `AvailabilitySlot` entity: owning painter, interval, `isBooked`
reservation flag.  The `painter` field is the hydrated `ManyToOne` relation
(the queries below always `join` it), kept flat to avoid a circular
structure. -/
structure Slot where
  id : String
  painterId : String
  startTime : Int
  endTime : Int
  isBooked : Bool
  painter : User
deriving DecidableEq, Repr

/-- `BookingStatus` from `booking.entity.ts`. -/
inductive BookingStatus where
  | pending
  | confirmed
  | cancelled
deriving DecidableEq, Repr

/-- The `Booking` entity.  `startTime`/`endTime` are stored `Date` values and
may in principle be Invalid (`none`), because `createBooking` stores the
parsed inputs unvalidated against `NaN`. -/
structure Booking where
  id : String
  customerId : String
  painterId : String
  availabilitySlotId : Option String
  startTime : Option Int
  endTime : Option Int
  status : BookingStatus
  createdAt : Int
  updatedAt : Int
deriving DecidableEq, Repr

/-- The Nest exceptions thrown by the services, by class and message. -/
inductive BErr where
  | notFound (msg : String)
  | badRequest (msg : String)
  | conflict (msg : String)
  | internalError (msg : String)
deriving DecidableEq, Repr

/-! ## Availability service (`availability.service.ts`) -/

/-- `findSlotById`: `availabilityRepository.findOne({ where: { id } })`. -/
def findSlotById (slots : List Slot) (slotId : String) : Option Slot :=
  slots.find? (fun s => s.id == slotId)

/-- The write `availabilityRepository.update(slotId, { isBooked })`. -/
def updateSlotBooked (slots : List Slot) (slotId : String) (b : Bool) : List Slot :=
  slots.map (fun s => if s.id == slotId then { s with isBooked := b } else s)

/-- `markSlotAsBooked` (lines 112–122): `NotFound` on a missing slot,
`Conflict` when the slot is already reserved, otherwise set `isBooked`.
The nullable argument models the `if (!slot)` guard. -/
def markSlotAsBooked (slots : List Slot) (slot : Option Slot) : Except BErr (List Slot) :=
  match slot with
  | none => .error (.notFound "Slot not found")
  | some s =>
    if s.isBooked then .error (.conflict "Slot is already booked")
    else .ok (updateSlotBooked slots s.id true)

/-- `markSlotAsAvailable` (lines 124–134): the release counterpart.
No call site in the repository invokes it (see the cancellation claim). -/
def markSlotAsAvailable (slots : List Slot) (slot : Option Slot) : Except BErr (List Slot) :=
  match slot with
  | none => .error (.notFound "Slot not found")
  | some s =>
    if s.isBooked then .ok (updateSlotBooked slots s.id false)
    else .error (.conflict "Slot is already available")

/-- The booking service invokes `markSlotAsBooked` with the slot *id*
(`markSlotAsBooked(selectedSlot.id)`); per the services' unit-test contract
the id denotes the stored slot, resolved here with `findSlotById`. -/
def reserveById (slots : List Slot) (slotId : String) : Except BErr (List Slot) :=
  markSlotAsBooked slots (findSlotById slots slotId)

/-- `timeRangeValidation` (lines 143–155): reject Invalid Dates
(`isNaN(getTime())`), then `start >= end`, then `start < new Date()`. -/
def timeRangeValidation (now : Int) (startTime endTime : Option Int) : Except BErr Unit :=
  if startTime.isNone || endTime.isNone then
    .error (.badRequest "Invalid date format. Please provide valid UTC timestamps.")
  else if jsGeB startTime endTime then
    .error (.badRequest "End time must be after start time")
  else if jsLtB startTime (some now) then
    .error (.badRequest "Cannot create availability in the past")
  else
    .ok ()

/-- `findAvailablePaintersForTimeSlot` (lines 99–110): free slots whose
interval fully covers the requested `[startTime, endTime]`
(`slot.startTime <= startTime AND slot.endTime >= endTime`). -/
def findAvailablePaintersForTimeSlot (slots : List Slot)
    (startTime endTime : Option Int) : List Slot :=
  slots.filter (fun s =>
    !s.isBooked && jsLeB (some s.startTime) startTime && jsGeB (some s.endTime) endTime)

/-! ## Painter assignment service (`painter-assignment.service.ts`) -/

/-- `getAccountAgeInMonths`: `floor(|now - createdAt| / (30 days in ms))`.
Note the `Math.abs`: the result depends only on the distance from `now`. -/
def getAccountAgeInMonths (now createdAt : Int) : Nat :=
  (now - createdAt).natAbs / 2592000000

/-- `getPainterCompletionRate`: confirmed count over total count for the
painter, with a neutral `0.5` when the painter has no bookings. -/
def getPainterCompletionRate (bookings : List Booking) (painterId : String) : ℚ :=
  let total := (bookings.filter (fun b => b.painterId == painterId)).length
  if total = 0 then 1 / 2
  else
    ((bookings.filter (fun b =>
        b.painterId == painterId && decide (b.status = BookingStatus.confirmed))).length : ℚ)
      / (total : ℚ)

/-- `calculatePainterScore`: base 10, tenure `min(months * 0.5, 5)`,
completion rate × 5, and a tiered responsiveness bonus.
`avgResponseTime` supplies the value of `getAverageResponseTime` (drawn from
`Math.random()` in the source) for each painter id. -/
def calculatePainterScore (now : Int) (bookings : List Booking)
    (avgResponseTime : String → ℚ) (painter : User) : ℚ :=
  let tenure : ℚ := min ((getAccountAgeInMonths now painter.createdAt : ℚ) * (1 / 2)) 5
  let completion : ℚ := getPainterCompletionRate bookings painter.id * 5
  let avg := avgResponseTime painter.id
  let responsiveness : ℚ := if avg < 2 then 3 else if avg < 6 then 2 else 1
  10 + tenure + completion + responsiveness

/-- The comparator of `findBestPainter`'s sort, as a total preorder on
scored slots: `(a, b) => b.score - a.score || a.startTime - b.startTime`,
i.e. score descending, then `startTime` ascending. -/
def bestRel (x y : Slot × ℚ) : Prop :=
  y.2 < x.2 ∨ (x.2 = y.2 ∧ x.1.startTime ≤ y.1.startTime)

instance : DecidableRel bestRel := fun x y => by
  unfold bestRel; infer_instance

instance : IsTotal (Slot × ℚ) bestRel := by
  constructor
  intro a b
  rcases lt_trichotomy a.2 b.2 with h | h | h
  · exact Or.inr (Or.inl h)
  · rcases le_total a.1.startTime b.1.startTime with hs | hs
    · exact Or.inl (Or.inr ⟨h, hs⟩)
    · exact Or.inr (Or.inr ⟨h.symm, hs⟩)
  · exact Or.inl (Or.inl h)

instance : IsTrans (Slot × ℚ) bestRel := by
  constructor
  rintro a b c (hab | ⟨hab, hab'⟩) (hbc | ⟨hbc, hbc'⟩)
  · exact Or.inl (lt_trans hbc hab)
  · exact Or.inl (hbc ▸ hab)
  · exact Or.inl (hab ▸ hbc)
  · exact Or.inr ⟨hab.trans hbc, le_trans hab' hbc'⟩

/-- `findBestPainter` (lines 24–54): throw on an empty candidate list,
short-circuit a single candidate without scoring, otherwise score every
candidate and take the head of the list sorted by score descending with
`startTime` ascending as tie-break.  JS's stable `Array.prototype.sort` is
modelled by the stable `List.insertionSort` over the comparator's preorder. -/
def findBestPainter (now : Int) (bookings : List Booking)
    (avgResponseTime : String → ℚ) (availableSlots : List Slot) : Except BErr Slot :=
  match availableSlots with
  | [] => .error (.internalError "No available painters")
  | [slot] => .ok slot
  | _ :: _ :: _ =>
    let scoredSlots := availableSlots.map (fun slot =>
      (slot, calculatePainterScore now bookings avgResponseTime slot.painter))
    match List.insertionSort bestRel scoredSlots with
    | [] => .error (.internalError "No available painters")
    | best :: _ => .ok best.1

/-- The proximity order used to rank alternatives:
ascending `Math.abs(slot.startTime - requestedStart)`. -/
def proxRel (requestedStart : Int) (a b : Slot) : Prop :=
  (a.startTime - requestedStart).natAbs ≤ (b.startTime - requestedStart).natAbs

instance (t : Int) : DecidableRel (proxRel t) := fun a b => by
  unfold proxRel; infer_instance

instance (t : Int) : IsTotal Slot (proxRel t) := by
  constructor; intro a b; exact Nat.le_total _ _

instance (t : Int) : IsTrans Slot (proxRel t) := by
  constructor; intro a b c; exact Nat.le_trans

/-- `findAlternativeSlots` (lines 109–143).  The query walks painter users
and their free slots lying fully inside
`[requestedStart - windowHours, requestedEnd + windowHours]` with duration at
least the requested one; the JS post-processing then flattens, re-filters
free slots, sorts by proximity to `requestedStart` and truncates to 5.
The source defaults `windowHours` to 24; call sites here pass 24 explicitly. -/
def findAlternativeSlots (users : List User) (slots : List Slot)
    (requestedStart requestedEnd : Option Int) (windowHours : Int) : List Slot :=
  let duration := jsSub requestedEnd requestedStart
  let searchStart := jsSub requestedStart (some (windowHours * 3600000))
  let searchEnd := jsAdd requestedEnd (some (windowHours * 3600000))
  let alternatives := (users.filter (fun u => decide (u.userType = UserType.painter))).map
    (fun u => slots.filter (fun s =>
      s.painterId == u.id && !s.isBooked &&
      jsGeB (some s.startTime) searchStart &&
      jsLeB (some s.endTime) searchEnd &&
      jsGeB (some (s.endTime - s.startTime)) duration))
  let flat := alternatives.flatten.filter (fun s => !s.isBooked)
  let sorted := List.insertionSort (proxRel ((requestedStart).getD 0)) flat
  sorted.take 5

/-! ## Booking service (`booking.service.ts`)

Each lifecycle operation returns an `OpResult`: the `Except` outcome plus
the booking and slot stores as the operation leaves them.  A thrown
exception aborts the remaining steps but keeps every database write already
performed — exactly the behaviour of the `async` source, which runs no
transaction. -/

deriving instance DecidableEq for Except

/-- Outcome stores of a lifecycle operation. -/
structure OpResult (α : Type) where
  outcome : Except BErr α
  bookings : List Booking
  slots : List Slot
deriving DecidableEq, Repr

/-- `createBooking` either returns the created booking or a list of
alternative slots (the "soft failure" path). -/
inductive CreateOutcome where
  | booked (b : Booking)
  | alternatives (slots : List Slot)
deriving DecidableEq, Repr

/-- `createBooking` (lines 32–112): resolve the customer, run the inline
range checks (note: *no* Invalid-Date guard — a `NaN` timestamp passes both
comparisons), query covering free slots, fall back to alternatives when none,
otherwise pick the best slot, persist the `Confirmed` booking and only then
reserve the winning slot.

`newBookingId` stands for the id generated by `bookingRepository.save`, and
`interfere` models the slot-store writes of concurrent requests happening
between the availability query and the reserve step (the two `await`s); it
is the identity when the request runs alone. -/
def createBooking (users : List User) (bookings : List Booking) (slots : List Slot)
    (now : Int) (avgResponseTime : String → ℚ) (customerId : String)
    (startTime endTime : Option Int) (newBookingId : String)
    (interfere : List Slot → List Slot) : OpResult CreateOutcome :=
  match users.find? (fun u => u.id == customerId && decide (u.userType = UserType.customer)) with
  | none => ⟨.error (.notFound "Customer not found"), bookings, slots⟩
  | some _ =>
    if jsGeB startTime endTime then
      ⟨.error (.badRequest "End time must be after start time"), bookings, slots⟩
    else if jsLtB startTime (some now) then
      ⟨.error (.badRequest "Cannot book in the past"), bookings, slots⟩
    else
      let availableSlots := findAvailablePaintersForTimeSlot slots startTime endTime
      if availableSlots.length = 0 then
        ⟨.ok (.alternatives (findAlternativeSlots users slots startTime endTime 24)),
          bookings, slots⟩
      else
        match findBestPainter now bookings avgResponseTime availableSlots with
        | .error e => ⟨.error e, bookings, slots⟩
        | .ok selectedSlot =>
          let booking : Booking :=
            { id := newBookingId, customerId := customerId,
              painterId := selectedSlot.painterId,
              availabilitySlotId := some selectedSlot.id,
              startTime := startTime, endTime := endTime,
              status := .confirmed, createdAt := now, updatedAt := now }
          let bookings2 := bookings ++ [booking]
          let slots2 := interfere slots
          match reserveById slots2 selectedSlot.id with
          | .error e => ⟨.error e, bookings2, slots2⟩
          | .ok slots3 => ⟨.ok (.booked booking), bookings2, slots3⟩

/-- `findBookingById` (lines 143–165) scoped to a participant:
`booking.id = :bookingId AND (customerId = :userId OR painterId = :userId)`. -/
def findBookingByIdScoped (bookings : List Booking) (bookingId userId : String) :
    Option Booking :=
  bookings.find? (fun b =>
    b.id == bookingId && (b.customerId == userId || b.painterId == userId))

/-- `updateBookingStatus` (lines 167–196): load the booking scoped to the
requester, reject updates of a `Cancelled` booking and no-op updates, persist
the new status, and — when cancelling a booking referencing a slot — invoke
`markSlotAsBooked(booking.availabilitySlotId)` (the source's actual call;
see the cancellation claim). -/
def updateBookingStatus (bookings : List Booking) (slots : List Slot)
    (bookingId : String) (newStatus : BookingStatus) (userId : String)
    (now : Int) : OpResult Booking :=
  match findBookingByIdScoped bookings bookingId userId with
  | none => ⟨.error (.notFound "Booking not found"), bookings, slots⟩
  | some booking =>
    if booking.status = BookingStatus.cancelled then
      ⟨.error (.badRequest "Cannot update cancelled booking"), bookings, slots⟩
    else if newStatus = booking.status then
      ⟨.error (.badRequest "Booking already has this status"), bookings, slots⟩
    else
      let updated := { booking with status := newStatus, updatedAt := now }
      let bookings2 := bookings.map (fun b => if b.id == booking.id then updated else b)
      match newStatus, booking.availabilitySlotId with
      | BookingStatus.cancelled, some slotId =>
        match reserveById slots slotId with
        | .error e => ⟨.error e, bookings2, slots⟩
        | .ok slots2 => ⟨.ok updated, bookings2, slots2⟩
      | _, _ => ⟨.ok updated, bookings2, slots⟩

/-- `bookAlternativeSlot` (lines 198–251): resolve the customer, resolve the
slot (`NotFound` when absent or already reserved), compute
`endTime = slot.startTime + duration`, reject only when it *exceeds*
`slot.endTime`, persist the `Confirmed` booking, then reserve the slot. -/
def bookAlternativeSlot (users : List User) (bookings : List Booking)
    (slots : List Slot) (customerId slotId : String) (duration : Int)
    (now : Int) (newBookingId : String) : OpResult Booking :=
  match users.find? (fun u => u.id == customerId && decide (u.userType = UserType.customer)) with
  | none => ⟨.error (.notFound "Customer not found"), bookings, slots⟩
  | some _ =>
    match findSlotById slots slotId with
    | none => ⟨.error (.notFound "Availability slot not found or already booked"),
        bookings, slots⟩
    | some slot =>
      if slot.isBooked then
        ⟨.error (.notFound "Availability slot not found or already booked"),
          bookings, slots⟩
      else
        let endTime := slot.startTime + duration
        if slot.endTime < endTime then
          ⟨.error (.badRequest "Requested duration exceeds available slot time"),
            bookings, slots⟩
        else
          let booking : Booking :=
            { id := newBookingId, customerId := customerId,
              painterId := slot.painterId,
              availabilitySlotId := some slot.id,
              startTime := some slot.startTime, endTime := some endTime,
              status := .confirmed, createdAt := now, updatedAt := now }
          let bookings2 := bookings ++ [booking]
          match reserveById slots slot.id with
          | .error e => ⟨.error e, bookings2, slots⟩
          | .ok slots2 => ⟨.ok booking, bookings2, slots2⟩

/-! ## Helper lemmas -/

theorem findSlotById_updateSlotBooked (slots : List Slot) (slotId : String) (b : Bool) :
    findSlotById (updateSlotBooked slots slotId b) slotId =
      (findSlotById slots slotId).map (fun s => { s with isBooked := b }) := by
  induction slots with
  | nil => rfl
  | cons hd tl ih =>
    by_cases h : hd.id = slotId
    · simp [findSlotById, updateSlotBooked, List.find?_cons, h]
    · simpa [findSlotById, updateSlotBooked, List.find?_cons, h] using ih

theorem findSlotById_of_mem_nodup {slots : List Slot} {s : Slot}
    (hids : (slots.map Slot.id).Nodup) (hmem : s ∈ slots) :
    findSlotById slots s.id = some s := by
  induction slots with
  | nil => cases hmem
  | cons hd tl ih =>
    rcases List.mem_cons.1 hmem with rfl | hmem'
    · simp [findSlotById, List.find?_cons]
    · have hne : hd.id ≠ s.id := by
        intro h
        exact (List.nodup_cons.1 hids).1 (h ▸ List.mem_map_of_mem Slot.id hmem')
      simpa [findSlotById, List.find?_cons, hne] using ih (List.nodup_cons.1 hids).2 hmem'

theorem markSlotAsBooked_free {slots : List Slot} {s : Slot} (hfree : s.isBooked = false) :
    markSlotAsBooked slots (some s) = .ok (updateSlotBooked slots s.id true) := by
  simp [markSlotAsBooked, hfree]

/-- The head of `findBestPainter`'s sort is a candidate of maximal score
whose `startTime` is least among the maximal-score candidates. -/
theorem findBestPainter_cons_cons (now : Int) (bookings : List Booking)
    (env : String → ℚ) (a b : Slot) (rest : List Slot) :
    ∃ s, findBestPainter now bookings env (a :: b :: rest) = .ok s ∧
      s ∈ a :: b :: rest ∧
      ∀ t ∈ a :: b :: rest,
        calculatePainterScore now bookings env t.painter ≤
          calculatePainterScore now bookings env s.painter ∧
        (calculatePainterScore now bookings env t.painter =
            calculatePainterScore now bookings env s.painter →
          s.startTime ≤ t.startTime) := by
  classical
  set f : Slot → Slot × ℚ :=
    fun slot => (slot, calculatePainterScore now bookings env slot.painter) with hf
  set scored : List (Slot × ℚ) := (a :: b :: rest).map f with hscored
  have hsorted : List.Sorted bestRel (List.insertionSort bestRel scored) :=
    List.sorted_insertionSort bestRel scored
  have hperm : List.Perm (List.insertionSort bestRel scored) scored :=
    List.perm_insertionSort bestRel scored
  cases hsort : List.insertionSort bestRel scored with
  | nil =>
    exfalso
    have hlen := hperm.length_eq
    rw [hsort] at hlen
    simp [hscored] at hlen
  | cons best tail =>
    rw [hsort] at hsorted hperm
    have hbest_mem : best ∈ scored := hperm.subset (List.mem_cons_self best tail)
    obtain ⟨s0, hs0mem, hs0eq⟩ := List.mem_map.1 hbest_mem
    refine ⟨best.1, ?_, ?_, ?_⟩
    · show findBestPainter now bookings env (a :: b :: rest) = .ok best.1
      simp only [findBestPainter, ← hf, ← hscored, hsort]
    · rw [← hs0eq]; exact hs0mem
    · intro t ht
      have hts : f t ∈ scored := List.mem_map_of_mem f ht
      have hbest2 : best.2 = calculatePainterScore now bookings env best.1.painter := by
        rw [← hs0eq]
      rcases List.mem_cons.1 (hperm.symm.subset hts) with heq | htail
      · have ht1 : t = best.1 := by
          have := congrArg Prod.fst heq
          simpa [hf] using this
        subst ht1
        exact ⟨le_of_eq rfl, fun _ => le_refl _⟩
      · have hrel : bestRel best (f t) := List.rel_of_sorted_cons hsorted (f t) htail
        have hft2 : (f t).2 = calculatePainterScore now bookings env t.painter := rfl
        rcases hrel with hlt | ⟨heq2, hle⟩
        · rw [hft2, hbest2] at hlt
          exact ⟨le_of_lt hlt, fun h => absurd (h ▸ hlt) (lt_irrefl _)⟩
        · rw [hft2, hbest2] at heq2
          exact ⟨le_of_eq heq2.symm, fun _ => hle⟩

theorem findBestPainter_ok_mem (now : Int) (bookings : List Booking)
    (env : String → ℚ) (l : List Slot) (hl : l ≠ []) :
    ∃ s, findBestPainter now bookings env l = .ok s ∧ s ∈ l := by
  match l with
  | [] => exact absurd rfl hl
  | [a] => exact ⟨a, rfl, List.mem_singleton_self a⟩
  | a :: b :: r =>
    obtain ⟨s, h1, h2, -⟩ := findBestPainter_cons_cons now bookings env a b r
    exact ⟨s, h1, h2⟩

/-! ## Claim theorems -/

/-- Claim C2 (code bug): cancelling a Confirmed booking that references a
reserved slot does **not** release the slot.  `updateBookingStatus` invokes
`markSlotAsBooked` — reserve — on the referenced slot instead of
`markSlotAsAvailable` (its own comment says "free up the availability
slot", and `markSlotAsAvailable` has no caller anywhere).  On a concrete
cancelled booking the reserve call raises `Conflict` on the already-booked
slot: the operation fails after the Cancelled status was persisted, and the
slot's `isBooked` flag stays `true` instead of becoming `false`. -/
theorem cancelBooking_leaves_slot_reserved :
    updateBookingStatus
        [⟨"b1", "c1", "p1", some "s1", some 110, some 130, .confirmed, 0, 0⟩]
        [⟨"s1", "p1", 100, 140, true, ⟨"p1", .painter, 0⟩⟩]
        "b1" .cancelled "c1" 99 =
      ⟨.error (.conflict "Slot is already booked"),
        [⟨"b1", "c1", "p1", some "s1", some 110, some 130, .cancelled, 0, 99⟩],
        [⟨"s1", "p1", 100, 140, true, ⟨"p1", .painter, 0⟩⟩]⟩ := by
  decide

/-- Claim C3 (code bug): `createBooking` persists the booking **before**
reserving the slot and runs no transaction, so when the reserve step loses
the race (the slot was booked by a concurrent caller between the
availability query and the reserve, modelled by `interfere`), the operation
fails with `Conflict` but the Confirmed booking record remains in the
booking store — creation is not atomic. -/
theorem createBooking_persists_booking_on_reserve_conflict :
    createBooking [⟨"c1", .customer, 0⟩, ⟨"p1", .painter, 0⟩] []
        [⟨"s1", "p1", 100, 140, false, ⟨"p1", .painter, 0⟩⟩]
        0 (fun _ => 0) "c1" (some 110) (some 130) "b1"
        (fun ss => updateSlotBooked ss "s1" true) =
      ⟨.error (.conflict "Slot is already booked"),
        [⟨"b1", "c1", "p1", some "s1", some 110, some 130, .confirmed, 0, 0⟩],
        [⟨"s1", "p1", 100, 140, true, ⟨"p1", .painter, 0⟩⟩]⟩ := by
  decide

/-- Claim C4 (code bug): `createBooking` does **not** fail with
`InvalidInput` on unparseable timestamps.  Its inline checks compare `NaN`
dates (`start >= end`, `start < now` are both false for Invalid Dates) and
it never calls the shared `timeRangeValidation` — although its own unit
test expects that call — so an unparseable request sails through
validation to the availability query (returning the empty-alternatives
result here), while availability creation does reject the same input via
`timeRangeValidation`. -/
theorem createBooking_accepts_unparseable_timestamps :
    createBooking [⟨"c1", .customer, 0⟩, ⟨"p1", .painter, 0⟩] []
        [⟨"s1", "p1", 100, 140, false, ⟨"p1", .painter, 0⟩⟩]
        0 (fun _ => 0) "c1" none none "b1" id =
      ⟨.ok (.alternatives []), [], [⟨"s1", "p1", 100, 140, false, ⟨"p1", .painter, 0⟩⟩]⟩ ∧
    timeRangeValidation 0 none (some 130) =
      .error (.badRequest "Invalid date format. Please provide valid UTC timestamps.") ∧
    timeRangeValidation 0 (some 110) none =
      .error (.badRequest "Invalid date format. Please provide valid UTC timestamps.") := by
  refine ⟨by decide, by decide, by decide⟩

/-- Claim C5 counterexample: the transition Confirmed → Pending — which the
claim says must fail with `InvalidTransition` — succeeds:
`updateBookingStatus` only rejects updates of a Cancelled booking and
no-op updates. -/
theorem updateStatus_confirmed_to_pending_succeeds :
    updateBookingStatus
        [⟨"b1", "c1", "p1", none, some 110, some 130, .confirmed, 0, 0⟩] []
        "b1" .pending "c1" 99 =
      ⟨.ok ⟨"b1", "c1", "p1", none, some 110, some 130, .pending, 0, 99⟩,
        [⟨"b1", "c1", "p1", none, some 110, some 130, .pending, 0, 99⟩], []⟩ := by
  decide

/-- Claim C5 (amended): given the scoped lookup found booking `b`,
`updateBookingStatus` rejects exactly two cases, with the stores unchanged:
(i) any update when the current status is Cancelled and (ii) re-asserting
the current status.  In every other case — Pending → Confirmed,
Pending → Cancelled, Confirmed → Cancelled, *and also* Confirmed → Pending,
which the original claim says must fail — the new status is persisted to
the booking store; the operation then succeeds immediately when the target
status is not Cancelled or no slot is referenced, while a cancellation with
a referenced slot additionally runs the slot step
(`markSlotAsBooked(booking.availabilitySlotId)`), whose outcome — a passed-
through error, or success with the updated slot store — becomes the
operation's result. -/
theorem updateStatus_guard_complete (bookings : List Booking) (slots : List Slot)
    (bookingId : String) (newStatus : BookingStatus) (userId : String) (now : Int)
    (b : Booking) (hfind : findBookingByIdScoped bookings bookingId userId = some b) :
    (b.status = .cancelled →
      updateBookingStatus bookings slots bookingId newStatus userId now =
        ⟨.error (.badRequest "Cannot update cancelled booking"), bookings, slots⟩) ∧
    (b.status ≠ .cancelled → newStatus = b.status →
      updateBookingStatus bookings slots bookingId newStatus userId now =
        ⟨.error (.badRequest "Booking already has this status"), bookings, slots⟩) ∧
    (b.status ≠ .cancelled → newStatus ≠ b.status →
      (updateBookingStatus bookings slots bookingId newStatus userId now).bookings =
        bookings.map (fun x => if x.id == b.id
          then { b with status := newStatus, updatedAt := now } else x) ∧
      ((newStatus ≠ .cancelled ∨ b.availabilitySlotId = none) →
        updateBookingStatus bookings slots bookingId newStatus userId now =
          ⟨.ok { b with status := newStatus, updatedAt := now },
            bookings.map (fun x => if x.id == b.id
              then { b with status := newStatus, updatedAt := now } else x), slots⟩) ∧
      (∀ sid, newStatus = .cancelled → b.availabilitySlotId = some sid →
        (∀ e, reserveById slots sid = .error e →
          updateBookingStatus bookings slots bookingId newStatus userId now =
            ⟨.error e,
              bookings.map (fun x => if x.id == b.id
                then { b with status := newStatus, updatedAt := now } else x), slots⟩) ∧
        (∀ slots2, reserveById slots sid = .ok slots2 →
          updateBookingStatus bookings slots bookingId newStatus userId now =
            ⟨.ok { b with status := newStatus, updatedAt := now },
              bookings.map (fun x => if x.id == b.id
                then { b with status := newStatus, updatedAt := now } else x),
              slots2⟩))) := by
  refine ⟨?_, ?_, ?_⟩
  · intro hcanc
    simp [updateBookingStatus, hfind, hcanc]
  · intro hncanc hsame
    simp [updateBookingStatus, hfind, hncanc, hsame]
  · intro hncanc hdiff
    refine ⟨?_, ?_, ?_⟩
    · cases hnew : newStatus with
      | cancelled =>
        cases hslot : b.availabilitySlotId with
        | none =>
          simp [updateBookingStatus, hfind, hncanc, hnew ▸ hdiff, hslot]
        | some sid =>
          cases hres : reserveById slots sid with
          | error e =>
            simp [updateBookingStatus, hfind, hncanc, hnew ▸ hdiff, hslot, hres]
          | ok slots2 =>
            simp [updateBookingStatus, hfind, hncanc, hnew ▸ hdiff, hslot, hres]
      | pending =>
        cases hslot : b.availabilitySlotId with
        | none => simp [updateBookingStatus, hfind, hncanc, hnew ▸ hdiff, hslot]
        | some sid => simp [updateBookingStatus, hfind, hncanc, hnew ▸ hdiff, hslot]
      | confirmed =>
        cases hslot : b.availabilitySlotId with
        | none => simp [updateBookingStatus, hfind, hncanc, hnew ▸ hdiff, hslot]
        | some sid => simp [updateBookingStatus, hfind, hncanc, hnew ▸ hdiff, hslot]
    · intro hside
      rcases hside with hnotc | hnone
      · cases hnew : newStatus with
        | cancelled => exact absurd hnew hnotc
        | pending =>
          cases hslot : b.availabilitySlotId with
          | none => simp [updateBookingStatus, hfind, hncanc, hnew ▸ hdiff, hslot]
          | some sid => simp [updateBookingStatus, hfind, hncanc, hnew ▸ hdiff, hslot]
        | confirmed =>
          cases hslot : b.availabilitySlotId with
          | none => simp [updateBookingStatus, hfind, hncanc, hnew ▸ hdiff, hslot]
          | some sid => simp [updateBookingStatus, hfind, hncanc, hnew ▸ hdiff, hslot]
      · cases hnew : newStatus with
        | cancelled => simp [updateBookingStatus, hfind, hncanc, hnew ▸ hdiff, hnone]
        | pending => simp [updateBookingStatus, hfind, hncanc, hnew ▸ hdiff, hnone]
        | confirmed => simp [updateBookingStatus, hfind, hncanc, hnew ▸ hdiff, hnone]
    · intro sid hnew hslot
      subst hnew
      constructor
      · intro e hres
        simp [updateBookingStatus, hfind, hncanc, hdiff, hslot, hres]
      · intro slots2 hres
        simp [updateBookingStatus, hfind, hncanc, hdiff, hslot, hres]

/-- Claim C5 amended-theorem witness: the Confirmed → Pending admission
persists the Pending status, and a Confirmed → Cancelled update of a
booking referencing a reserved slot persists Cancelled and then passes the
slot step's Conflict through. -/
theorem updateStatus_guard_complete_witness :
    updateBookingStatus
        [⟨"b1", "c1", "p1", none, some 110, some 130, .confirmed, 0, 0⟩] []
        "b1" .pending "c1" 99 =
      ⟨.ok ⟨"b1", "c1", "p1", none, some 110, some 130, .pending, 0, 99⟩,
        [⟨"b1", "c1", "p1", none, some 110, some 130, .pending, 0, 99⟩], []⟩ ∧
    updateBookingStatus
        [⟨"b1", "c1", "p1", some "s1", some 110, some 130, .confirmed, 0, 0⟩]
        [⟨"s1", "p1", 100, 140, true, ⟨"p1", .painter, 0⟩⟩]
        "b1" .cancelled "c1" 99 =
      ⟨.error (.conflict "Slot is already booked"),
        [⟨"b1", "c1", "p1", some "s1", some 110, some 130, .cancelled, 0, 99⟩],
        [⟨"s1", "p1", 100, 140, true, ⟨"p1", .painter, 0⟩⟩]⟩ := by
  constructor
  · have h := ((updateStatus_guard_complete
        [⟨"b1", "c1", "p1", none, some 110, some 130, .confirmed, 0, 0⟩] []
        "b1" BookingStatus.pending "c1" 99
        ⟨"b1", "c1", "p1", none, some 110, some 130, .confirmed, 0, 0⟩
        (by decide)).2.2 (by decide) (by decide)).2.1 (Or.inl (by decide))
    simpa using h
  · have h := ((((updateStatus_guard_complete
        [⟨"b1", "c1", "p1", some "s1", some 110, some 130, .confirmed, 0, 0⟩]
        [⟨"s1", "p1", 100, 140, true, ⟨"p1", .painter, 0⟩⟩]
        "b1" BookingStatus.cancelled "c1" 99
        ⟨"b1", "c1", "p1", some "s1", some 110, some 130, .confirmed, 0, 0⟩
        (by decide)).2.2 (by decide) (by decide)).2.2 "s1" rfl rfl).1
        (BErr.conflict "Slot is already booked") (by decide))
    simpa using h

/-- Claim C6: the reserve operation is not idempotent.  Reserving an
already-reserved slot fails with `Conflict` (returning no updated store, so
the slot is untouched); reserving an id that resolves to no stored slot
fails with `NotFound`; and after a successful reserve, reserving the same id
again without an intervening release always fails with `Conflict`. -/
theorem reserve_not_idempotent (slots : List Slot) :
    (∀ s : Slot, s.isBooked = true →
      markSlotAsBooked slots (some s) = .error (.conflict "Slot is already booked")) ∧
    (∀ slotId : String, findSlotById slots slotId = none →
      reserveById slots slotId = .error (.notFound "Slot not found")) ∧
    (∀ (slotId : String) (s : Slot) (slots2 : List Slot),
      findSlotById slots slotId = some s →
      reserveById slots slotId = .ok slots2 →
      reserveById slots2 slotId = .error (.conflict "Slot is already booked")) := by
  refine ⟨?_, ?_, ?_⟩
  · intro s hb
    simp [markSlotAsBooked, hb]
  · intro slotId hnone
    simp [reserveById, hnone, markSlotAsBooked]
  · intro slotId s slots2 hfind hok
    have hid : s.id = slotId := by simpa using List.find?_some hfind
    subst hid
    rw [reserveById, hfind] at hok
    by_cases hb : s.isBooked
    · simp [markSlotAsBooked, hb] at hok
    · rw [markSlotAsBooked_free (Bool.eq_false_iff.2 hb)] at hok
      have hs2 : slots2 = updateSlotBooked slots s.id true := (Except.ok.inj hok).symm
      subst hs2
      rw [reserveById, findSlotById_updateSlotBooked, hfind]
      simp [markSlotAsBooked]

/-- Claim C6 witness: two slots, one free and one reserved; the reserved one
conflicts, a missing id is not found, and a double reserve of the free one
conflicts the second time. -/
theorem reserve_not_idempotent_witness :
    markSlotAsBooked [⟨"s1", "p1", 100, 140, false, ⟨"p1", .painter, 0⟩⟩]
        (some ⟨"s2", "p1", 150, 160, true, ⟨"p1", .painter, 0⟩⟩) =
      .error (.conflict "Slot is already booked") ∧
    reserveById [⟨"s1", "p1", 100, 140, false, ⟨"p1", .painter, 0⟩⟩] "zz" =
      .error (.notFound "Slot not found") ∧
    reserveById [⟨"s1", "p1", 100, 140, true, ⟨"p1", .painter, 0⟩⟩] "s1" =
      .error (.conflict "Slot is already booked") :=
  ⟨(reserve_not_idempotent [⟨"s1", "p1", 100, 140, false, ⟨"p1", .painter, 0⟩⟩]).1
      ⟨"s2", "p1", 150, 160, true, ⟨"p1", .painter, 0⟩⟩ (by decide),
   (reserve_not_idempotent [⟨"s1", "p1", 100, 140, false, ⟨"p1", .painter, 0⟩⟩]).2.1
      "zz" (by decide),
   (reserve_not_idempotent [⟨"s1", "p1", 100, 140, false, ⟨"p1", .painter, 0⟩⟩]).2.2
      "s1" ⟨"s1", "p1", 100, 140, false, ⟨"p1", .painter, 0⟩⟩
      [⟨"s1", "p1", 100, 140, true, ⟨"p1", .painter, 0⟩⟩] (by decide) (by decide)⟩

/-- Claim C9: `bookAlternativeSlot` does not require a positive duration.
For a valid customer and a stored free slot, any `duration ≤ 0` passes the
only range check (`endTime > slot.endTime`), and a Confirmed booking with
`endTime = slot.startTime + duration ≤ startTime` is created and persisted:
the Booking invariant `start < end` is not enforced on this path. -/
theorem bookAlternativeSlot_accepts_nonpositive_duration
    (users : List User) (bookings : List Booking) (slots : List Slot)
    (customerId slotId newBookingId : String) (duration now : Int)
    (hcust : (users.find? (fun u =>
      u.id == customerId && decide (u.userType = UserType.customer))).isSome = true)
    (s : Slot) (hfind : findSlotById slots slotId = some s) (hfree : s.isBooked = false)
    (hinterval : s.startTime < s.endTime) (hdur : duration ≤ 0) :
    ∃ b : Booking,
      (bookAlternativeSlot users bookings slots customerId slotId duration now
          newBookingId).outcome = .ok b ∧
      b.status = .confirmed ∧
      b.startTime = some s.startTime ∧
      b.endTime = some (s.startTime + duration) ∧
      s.startTime + duration ≤ s.startTime ∧
      (bookAlternativeSlot users bookings slots customerId slotId duration now
          newBookingId).bookings = bookings ++ [b] := by
  obtain ⟨c, hc⟩ := Option.isSome_iff_exists.1 hcust
  have hid : s.id = slotId := by simpa using List.find?_some hfind
  have hnot : ¬(s.endTime < s.startTime + duration) := by omega
  have hfind' : findSlotById slots s.id = some s := by rw [hid]; exact hfind
  have hres : reserveById slots s.id = .ok (updateSlotBooked slots s.id true) := by
    rw [reserveById, hfind']
    exact markSlotAsBooked_free hfree
  refine ⟨{ id := newBookingId, customerId := customerId, painterId := s.painterId,
            availabilitySlotId := some s.id, startTime := some s.startTime,
            endTime := some (s.startTime + duration), status := .confirmed,
            createdAt := now, updatedAt := now }, ?_, rfl, rfl, rfl, by omega, ?_⟩ <;>
    simp [bookAlternativeSlot, hc, hfind, hfree, hnot, hres]

/-- Claim C9 witness: duration `0` on a free 100–140 slot books 100–100. -/
theorem bookAlternativeSlot_accepts_nonpositive_duration_witness :
    ∃ b : Booking,
      (bookAlternativeSlot [⟨"c1", .customer, 0⟩] []
          [⟨"s1", "p1", 100, 140, false, ⟨"p1", .painter, 0⟩⟩]
          "c1" "s1" 0 7 "b2").outcome = .ok b ∧
      b.status = .confirmed ∧
      b.startTime = some 100 ∧
      b.endTime = some (100 + 0) ∧
      (100 : Int) + 0 ≤ 100 ∧
      (bookAlternativeSlot [⟨"c1", .customer, 0⟩] []
          [⟨"s1", "p1", 100, 140, false, ⟨"p1", .painter, 0⟩⟩]
          "c1" "s1" 0 7 "b2").bookings = [] ++ [b] :=
  bookAlternativeSlot_accepts_nonpositive_duration
    [⟨"c1", .customer, 0⟩] [] [⟨"s1", "p1", 100, 140, false, ⟨"p1", .painter, 0⟩⟩]
    "c1" "s1" "b2" 0 7 (by decide)
    ⟨"s1", "p1", 100, 140, false, ⟨"p1", .painter, 0⟩⟩
    (by decide) (by decide) (by decide) (by decide)

/-- Claim C10: the scorer's tenure term uses `Math.abs(now - createdAt)`, so
it is symmetric around `now` — a painter created `t` in the future scores
exactly as one created `t` in the past — and therefore not monotone in the
registration date: a painter registered *later* (90 days in the future) can
outscore one registered earlier (60 days in the past). -/
theorem painterScore_tenure_symmetric :
    (∀ (now t : Int) (u : User) (bookings : List Booking) (env : String → ℚ),
      calculatePainterScore now bookings env { u with createdAt := now - t } =
        calculatePainterScore now bookings env { u with createdAt := now + t }) ∧
    (∃ c1 c2 : Int, c1 < c2 ∧
      calculatePainterScore 0 [] (fun _ => 0) ⟨"p", .painter, c1⟩ <
        calculatePainterScore 0 [] (fun _ => 0) ⟨"p", .painter, c2⟩) := by
  constructor
  · intro now t u bookings env
    have hage : getAccountAgeInMonths now (now - t) = getAccountAgeInMonths now (now + t) := by
      unfold getAccountAgeInMonths
      have h1 : now - (now - t) = t := by ring
      have h2 : now - (now + t) = -t := by ring
      rw [h1, h2, Int.natAbs_neg]
    simp [calculatePainterScore, hage]
  · refine ⟨-5184000000, 7776000000, by decide, ?_⟩
    norm_num [calculatePainterScore, getAccountAgeInMonths, getPainterCompletionRate,
      min_def]

/-- Claim C7: `findBestPainter` fails with the no-candidates error on an
empty list; with exactly one candidate it returns that candidate whatever
the scoring environment (the quantification over `now`, `bookings` and
`avgResponseTime` expresses that the Scorer is not consulted); with two or
more candidates it returns a candidate of maximal score, whose `startTime`
is least among candidates of that maximal score. -/
theorem findBestPainter_selection_spec (now : Int) (bookings : List Booking)
    (env : String → ℚ) (l : List Slot) :
    findBestPainter now bookings env [] =
      .error (.internalError "No available painters") ∧
    (∀ s : Slot, findBestPainter now bookings env [s] = .ok s) ∧
    (2 ≤ l.length →
      ∃ s, findBestPainter now bookings env l = .ok s ∧ s ∈ l ∧
        ∀ t ∈ l,
          calculatePainterScore now bookings env t.painter ≤
            calculatePainterScore now bookings env s.painter ∧
          (calculatePainterScore now bookings env t.painter =
              calculatePainterScore now bookings env s.painter →
            s.startTime ≤ t.startTime)) := by
  refine ⟨rfl, fun s => rfl, ?_⟩
  intro hlen
  match l with
  | [] => simp at hlen
  | [a] => simp at hlen
  | a :: b :: rest => exact findBestPainter_cons_cons now bookings env a b rest

/-- Claim C7 witness: two free slots with brand-new painters score equally;
the earlier-starting slot (start 90) wins the tie. -/
theorem findBestPainter_selection_spec_witness :
    ∃ s : Slot, findBestPainter 0 [] (fun _ => 0)
        [⟨"s1", "p1", 100, 140, false, ⟨"p1", .painter, 0⟩⟩,
         ⟨"s2", "p2", 90, 140, false, ⟨"p2", .painter, 0⟩⟩] = .ok s ∧
      s ∈ ([⟨"s1", "p1", 100, 140, false, ⟨"p1", .painter, 0⟩⟩,
            ⟨"s2", "p2", 90, 140, false, ⟨"p2", .painter, 0⟩⟩] : List Slot) ∧
      ∀ t ∈ ([⟨"s1", "p1", 100, 140, false, ⟨"p1", .painter, 0⟩⟩,
              ⟨"s2", "p2", 90, 140, false, ⟨"p2", .painter, 0⟩⟩] : List Slot),
        calculatePainterScore 0 [] (fun _ => 0) t.painter ≤
          calculatePainterScore 0 [] (fun _ => 0) s.painter ∧
        (calculatePainterScore 0 [] (fun _ => 0) t.painter =
            calculatePainterScore 0 [] (fun _ => 0) s.painter →
          s.startTime ≤ t.startTime) :=
  (findBestPainter_selection_spec 0 [] (fun _ => 0)
      [⟨"s1", "p1", 100, 140, false, ⟨"p1", .painter, 0⟩⟩,
       ⟨"s2", "p2", 90, 140, false, ⟨"p2", .painter, 0⟩⟩]).2.2 (by decide)

/-- Claim C8: with the default 24-hour window, `findAlternativeSlots`
returns at most 5 slots, ordered ascending by distance of their start from
`requestedStart`; every returned slot is free, lies fully inside
`[requestedStart - 24h, requestedEnd + 24h]` and is at least as long as the
requested duration; and when no stored slot qualifies the result is the
empty list rather than an error. -/
theorem findAlternativeSlots_spec (users : List User) (slots : List Slot)
    (rs re : Int) (_hrange : rs < re) :
    (findAlternativeSlots users slots (some rs) (some re) 24).length ≤ 5 ∧
    List.Sorted (proxRel rs) (findAlternativeSlots users slots (some rs) (some re) 24) ∧
    (∀ s ∈ findAlternativeSlots users slots (some rs) (some re) 24,
      s.isBooked = false ∧ rs - 86400000 ≤ s.startTime ∧
      s.endTime ≤ re + 86400000 ∧ re - rs ≤ s.endTime - s.startTime) ∧
    ((∀ s ∈ slots, ¬(s.isBooked = false ∧ rs - 86400000 ≤ s.startTime ∧
        s.endTime ≤ re + 86400000 ∧ re - rs ≤ s.endTime - s.startTime)) →
      findAlternativeSlots users slots (some rs) (some re) 24 = []) := by
  have hmem : ∀ s ∈ findAlternativeSlots users slots (some rs) (some re) 24,
      s ∈ slots ∧ s.isBooked = false ∧ rs - 86400000 ≤ s.startTime ∧
      s.endTime ≤ re + 86400000 ∧ re - rs ≤ s.endTime - s.startTime := by
    intro s hs
    have h1 : s ∈ List.insertionSort (proxRel rs)
        ((((users.filter (fun u => decide (u.userType = UserType.painter))).map
          (fun u => slots.filter (fun s =>
            s.painterId == u.id && !s.isBooked &&
            jsGeB (some s.startTime) (jsSub (some rs) (some (24 * 3600000))) &&
            jsLeB (some s.endTime) (jsAdd (some re) (some (24 * 3600000))) &&
            jsGeB (some (s.endTime - s.startTime)) (jsSub (some re) (some rs))))).flatten).filter
          (fun s => !s.isBooked)) := by
      simpa [findAlternativeSlots, jsSub, jsAdd] using List.take_subset 5 _ hs
    rw [List.mem_insertionSort] at h1
    obtain ⟨h2, -⟩ := List.mem_filter.1 h1
    obtain ⟨lst, hlst, hslst⟩ := List.mem_flatten.1 h2
    obtain ⟨u, -, rfl⟩ := List.mem_map.1 hlst
    obtain ⟨hss, hcond⟩ := List.mem_filter.1 hslst
    simp only [Bool.and_eq_true, Bool.not_eq_true', decide_eq_true_eq,
      jsGeB, jsLeB, jsSub, jsAdd] at hcond
    obtain ⟨⟨⟨⟨-, hfree⟩, hstart⟩, hend⟩, hdur⟩ := hcond
    exact ⟨hss, hfree, by omega, by omega, by omega⟩
  refine ⟨?_, ?_, fun s hs => ((hmem s hs).2), ?_⟩
  · simp only [findAlternativeSlots]
    exact List.length_take_le 5 _
  · have hsorted : List.Sorted (proxRel rs) (List.insertionSort (proxRel rs)
        ((((users.filter (fun u => decide (u.userType = UserType.painter))).map
          (fun u => slots.filter (fun s =>
            s.painterId == u.id && !s.isBooked &&
            jsGeB (some s.startTime) (jsSub (some rs) (some (24 * 3600000))) &&
            jsLeB (some s.endTime) (jsAdd (some re) (some (24 * 3600000))) &&
            jsGeB (some (s.endTime - s.startTime)) (jsSub (some re) (some rs))))).flatten).filter
          (fun s => !s.isBooked))) :=
      List.sorted_insertionSort (proxRel rs) _
    simpa [findAlternativeSlots, jsSub, jsAdd] using
      hsorted.sublist (List.take_sublist 5 _)
  · intro hnone
    rw [List.eq_nil_iff_forall_not_mem]
    intro s hs
    obtain ⟨hss, hrest⟩ := hmem s hs
    exact hnone s hss hrest

/-- Claim C8 witness: a single qualifying slot is returned for the request
110–130 with the 24-hour window. -/
theorem findAlternativeSlots_spec_witness :
    (findAlternativeSlots [⟨"p1", .painter, 0⟩]
        [⟨"s1", "p1", 100, 140, false, ⟨"p1", .painter, 0⟩⟩]
        (some 110) (some 130) 24).length ≤ 5 ∧
    ∀ s ∈ findAlternativeSlots [⟨"p1", .painter, 0⟩]
        [⟨"s1", "p1", 100, 140, false, ⟨"p1", .painter, 0⟩⟩]
        (some 110) (some 130) 24,
      s.isBooked = false ∧ (110 : Int) - 86400000 ≤ s.startTime ∧
      s.endTime ≤ 130 + 86400000 ∧ (130 : Int) - 110 ≤ s.endTime - s.startTime :=
  ⟨(findAlternativeSlots_spec [⟨"p1", .painter, 0⟩]
      [⟨"s1", "p1", 100, 140, false, ⟨"p1", .painter, 0⟩⟩] 110 130 (by decide)).1,
   (findAlternativeSlots_spec [⟨"p1", .painter, 0⟩]
      [⟨"s1", "p1", 100, 140, false, ⟨"p1", .painter, 0⟩⟩] 110 130 (by decide)).2.2.1⟩

/-- Claim C1: a `createBooking` call by a valid customer, with a valid
future time range covered by at least one free slot (and no concurrent
interference), creates a Confirmed booking for that customer referencing
the selected slot, appends it to the booking store, and afterwards the
selected slot's `isBooked` flag is `true`. -/
theorem createBooking_confirms_and_reserves_slot
    (users : List User) (bookings : List Booking) (slots : List Slot)
    (now : Int) (env : String → ℚ) (customerId newBookingId : String) (rs re : Int)
    (hcust : (users.find? (fun u =>
      u.id == customerId && decide (u.userType = UserType.customer))).isSome = true)
    (hids : (slots.map Slot.id).Nodup)
    (hfuture : now ≤ rs) (hrange : rs < re)
    (cov : Slot) (hmem : cov ∈ slots) (hfree : cov.isBooked = false)
    (hcs : cov.startTime ≤ rs) (hce : re ≤ cov.endTime) :
    ∃ (b : Booking) (sel : Slot),
      (createBooking users bookings slots now env customerId (some rs) (some re)
          newBookingId id).outcome = .ok (.booked b) ∧
      b.status = .confirmed ∧ b.customerId = customerId ∧
      b.startTime = some rs ∧ b.endTime = some re ∧
      b.availabilitySlotId = some sel.id ∧
      sel ∈ slots ∧ sel.isBooked = false ∧
      (createBooking users bookings slots now env customerId (some rs) (some re)
          newBookingId id).bookings = bookings ++ [b] ∧
      findSlotById (createBooking users bookings slots now env customerId (some rs)
          (some re) newBookingId id).slots sel.id = some { sel with isBooked := true } := by
  obtain ⟨c, hc⟩ := Option.isSome_iff_exists.1 hcust
  have hge : jsGeB (some rs) (some re) = false := by
    simp only [jsGeB, decide_eq_false_iff_not]
    omega
  have hlt : jsLtB (some rs) (some now) = false := by
    simp only [jsLtB, decide_eq_false_iff_not]
    omega
  have hcovmem : cov ∈ findAvailablePaintersForTimeSlot slots (some rs) (some re) := by
    refine List.mem_filter.2 ⟨hmem, ?_⟩
    simp [jsLeB, jsGeB, hfree, hcs, hce]
  have hlen : ¬(findAvailablePaintersForTimeSlot slots (some rs) (some re)).length = 0 := by
    simp only [List.length_eq_zero]
    exact List.ne_nil_of_mem hcovmem
  obtain ⟨sel, hsel, hselmem⟩ := findBestPainter_ok_mem now bookings env
    (findAvailablePaintersForTimeSlot slots (some rs) (some re))
    (List.ne_nil_of_mem hcovmem)
  obtain ⟨hselslots, hselcond⟩ := List.mem_filter.1 hselmem
  have hselfree : sel.isBooked = false := by
    simp only [Bool.and_eq_true, Bool.not_eq_true'] at hselcond
    exact hselcond.1.1
  have hfindsel : findSlotById slots sel.id = some sel :=
    findSlotById_of_mem_nodup hids hselslots
  have hres : reserveById slots sel.id = .ok (updateSlotBooked slots sel.id true) := by
    rw [reserveById, hfindsel]
    exact markSlotAsBooked_free hselfree
  refine ⟨{ id := newBookingId, customerId := customerId, painterId := sel.painterId,
            availabilitySlotId := some sel.id, startTime := some rs, endTime := some re,
            status := .confirmed, createdAt := now, updatedAt := now }, sel,
          ?_, rfl, rfl, rfl, rfl, rfl, hselslots, hselfree, ?_, ?_⟩ <;>
    simp [createBooking, hc, hge, hlt, hlen, hsel, hres, id,
      findSlotById_updateSlotBooked, hfindsel]

/-- Claim C1 witness: painter p1 offers a free slot 100–140; customer c1
requests 110–130 at time 0 and gets a Confirmed booking on that slot, which
becomes reserved. -/
theorem createBooking_confirms_and_reserves_slot_witness :
    ∃ (b : Booking) (sel : Slot),
      (createBooking [⟨"c1", .customer, 0⟩, ⟨"p1", .painter, 0⟩] []
          [⟨"s1", "p1", 100, 140, false, ⟨"p1", .painter, 0⟩⟩]
          0 (fun _ => 0) "c1" (some 110) (some 130) "b1" id).outcome =
        .ok (.booked b) ∧
      b.status = .confirmed ∧ b.customerId = "c1" ∧
      b.startTime = some 110 ∧ b.endTime = some 130 ∧
      b.availabilitySlotId = some sel.id ∧
      sel ∈ ([⟨"s1", "p1", 100, 140, false, ⟨"p1", .painter, 0⟩⟩] : List Slot) ∧
      sel.isBooked = false ∧
      (createBooking [⟨"c1", .customer, 0⟩, ⟨"p1", .painter, 0⟩] []
          [⟨"s1", "p1", 100, 140, false, ⟨"p1", .painter, 0⟩⟩]
          0 (fun _ => 0) "c1" (some 110) (some 130) "b1" id).bookings = [] ++ [b] ∧
      findSlotById (createBooking [⟨"c1", .customer, 0⟩, ⟨"p1", .painter, 0⟩] []
          [⟨"s1", "p1", 100, 140, false, ⟨"p1", .painter, 0⟩⟩]
          0 (fun _ => 0) "c1" (some 110) (some 130) "b1" id).slots sel.id =
        some { sel with isBooked := true } :=
  createBooking_confirms_and_reserves_slot
    [⟨"c1", .customer, 0⟩, ⟨"p1", .painter, 0⟩] []
    [⟨"s1", "p1", 100, 140, false, ⟨"p1", .painter, 0⟩⟩]
    0 (fun _ => 0) "c1" "b1" 110 130 (by decide) (by decide) (by decide) (by decide)
    ⟨"s1", "p1", 100, 140, false, ⟨"p1", .painter, 0⟩⟩
    (by decide) (by decide) (by decide) (by decide)

end PainterBooking
